import Mathlib

/-!
Shallow embedding of the optimizer core of the optimizer-visualization tool:
the gradient estimator and the four optimizer update rules from
`src/components/surface-3d.tsx` (`computeGradient`, `sgdStep`, `momentumStep`,
`rmspropStep`, `adamStep`, `optimizerStep`, `defaultParams`), and the
trajectory driver from the `OptimizerVisualization` component
(`initializePath`, `performStep`, `handleReset`, and the algorithm-switch
action wired through the control panel).

JavaScript numbers are modelled by `JNum`: an exact rational for finite
values plus the IEEE special values `Infinity`, `-Infinity` and `NaN`
(the sign of zero is not modelled; no computation relevant to the claims
distinguishes `0` from `-0`).  `Math.sqrt` is irrational in general, so it
is threaded through the embedding as an explicit function argument `msqrt`;
every property proved below holds for an arbitrary `msqrt`, and concrete
instantiations pick a concrete function.
-/

/-- Model of a JavaScript `number`: an exact rational for finite values,
plus the IEEE special values. -/
inductive JNum where
  | num : ℚ → JNum
  | posInf : JNum
  | negInf : JNum
  | nan : JNum
  deriving DecidableEq, Repr

namespace JNum

/-- JavaScript addition on `JNum` (IEEE rules for the special values). -/
def add : JNum → JNum → JNum
  | nan, _ => nan
  | _, nan => nan
  | num a, num b => num (a + b)
  | num _, posInf => posInf
  | num _, negInf => negInf
  | posInf, num _ => posInf
  | negInf, num _ => negInf
  | posInf, posInf => posInf
  | posInf, negInf => nan
  | negInf, posInf => nan
  | negInf, negInf => negInf

/-- JavaScript subtraction on `JNum`. -/
def sub : JNum → JNum → JNum
  | nan, _ => nan
  | _, nan => nan
  | num a, num b => num (a - b)
  | num _, posInf => negInf
  | num _, negInf => posInf
  | posInf, num _ => posInf
  | negInf, num _ => negInf
  | posInf, posInf => nan
  | posInf, negInf => posInf
  | negInf, posInf => negInf
  | negInf, negInf => nan

/-- JavaScript multiplication on `JNum` (`0 * Infinity = NaN`). -/
def mul : JNum → JNum → JNum
  | nan, _ => nan
  | _, nan => nan
  | num a, num b => num (a * b)
  | num a, posInf => if a = 0 then nan else if 0 < a then posInf else negInf
  | num a, negInf => if a = 0 then nan else if 0 < a then negInf else posInf
  | posInf, num a => if a = 0 then nan else if 0 < a then posInf else negInf
  | negInf, num a => if a = 0 then nan else if 0 < a then negInf else posInf
  | posInf, posInf => posInf
  | posInf, negInf => negInf
  | negInf, posInf => negInf
  | negInf, negInf => posInf

/-- JavaScript division on `JNum` (`x / 0` gives a signed infinity for
`x ≠ 0` and `NaN` for `0 / 0`; with unsigned zero, `Infinity / 0 = Infinity`). -/
def div : JNum → JNum → JNum
  | nan, _ => nan
  | _, nan => nan
  | num a, num b =>
      if b = 0 then (if a = 0 then nan else if 0 < a then posInf else negInf)
      else num (a / b)
  | num _, posInf => num 0
  | num _, negInf => num 0
  | posInf, num b => if 0 ≤ b then posInf else negInf
  | negInf, num b => if 0 ≤ b then negInf else posInf
  | posInf, posInf => nan
  | posInf, negInf => nan
  | negInf, posInf => nan
  | negInf, negInf => nan

instance : Add JNum := ⟨add⟩
instance : Sub JNum := ⟨sub⟩
instance : Mul JNum := ⟨mul⟩
instance : Div JNum := ⟨div⟩

/-- JavaScript `isFinite`. -/
def isFinite : JNum → Bool
  | num _ => true
  | _ => false

/-- JavaScript `<` comparison (any comparison involving `NaN` is `false`). -/
def lt : JNum → JNum → Bool
  | nan, _ => false
  | _, nan => false
  | num a, num b => decide (a < b)
  | num _, posInf => true
  | num _, negInf => false
  | posInf, _ => false
  | negInf, negInf => false
  | negInf, _ => true

/-- JavaScript `Math.abs`. -/
def jabs : JNum → JNum
  | num a => num (abs a)
  | nan => nan
  | posInf => posInf
  | negInf => posInf

/-- JavaScript `Math.max` (propagates `NaN`). -/
def jmax : JNum → JNum → JNum
  | nan, _ => nan
  | _, nan => nan
  | num a, num b => num (max a b)
  | posInf, _ => posInf
  | _, posInf => posInf
  | negInf, b => b
  | a, negInf => a

/-- JavaScript `Math.min` (propagates `NaN`). -/
def jmin : JNum → JNum → JNum
  | nan, _ => nan
  | _, nan => nan
  | num a, num b => num (min a b)
  | negInf, _ => negInf
  | _, negInf => negInf
  | posInf, b => b
  | a, posInf => a

/-- JavaScript `Math.pow` restricted to natural exponents (the only use in
the source is `Math.pow(beta, t)` where `t` is the Adam step counter, a
natural number).  `x ** 0 = 1` holds in JavaScript even for `NaN`. -/
def pow : JNum → Nat → JNum
  | _, 0 => num 1
  | num a, n => num (a ^ n)
  | posInf, _ => posInf
  | negInf, n => if n % 2 = 0 then posInf else negInf
  | nan, _ => nan

@[simp] theorem add_def (a b : JNum) : a + b = add a b := rfl

@[simp] theorem sub_def (a b : JNum) : a - b = sub a b := rfl

@[simp] theorem mul_def (a b : JNum) : a * b = mul a b := rfl

@[simp] theorem div_def (a b : JNum) : a / b = div a b := rfl

end JNum

open JNum

/-- Result of `computeGradient`: the pair `{ gradX, gradY }`. -/
structure Gradient where
  gradX : JNum
  gradY : JNum
  deriving DecidableEq, Repr

/-- The `OptimizerState` interface of `surface-3d.tsx`: current position plus
the optional per-algorithm fields.  An absent optional field is `none`
(TypeScript `undefined`).  The field `t` is the Adam step counter; the
program only ever stores the naturals `(state.t ?? 0) + 1` in it, so it is
modelled as an optional natural number. -/
structure OptimizerState where
  x : JNum
  y : JNum
  vx : Option JNum := none
  vy : Option JNum := none
  sx : Option JNum := none
  sy : Option JNum := none
  t : Option Nat := none
  deriving DecidableEq, Repr

/-- The `OptimizerParams` interface of `surface-3d.tsx`. -/
structure OptimizerParams where
  learningRate : JNum
  momentum : Option JNum := none
  rho : Option JNum := none
  epsilon : Option JNum := none
  beta1 : Option JNum := none
  beta2 : Option JNum := none
  deriving DecidableEq, Repr

/-- The `OptimizerStep` interface of `surface-3d.tsx`: one trajectory
record.  The `step` field only ever receives `0` or a list length, so it is
modelled as a natural number. -/
structure OptimizerStep where
  x : JNum
  y : JNum
  z : JNum
  gradX : JNum
  gradY : JNum
  gradNorm : JNum
  step : Nat
  deriving DecidableEq, Repr

/-- The default value of `computeGradient`'s parameter `h = 1e-5`. -/
def hDefault : JNum := num (1 / 100000)

/-- `computeGradient` from `surface-3d.tsx`: central finite differences
`gradX = (f(x+h,y) - f(x-h,y)) / (2h)`, `gradY = (f(x,y+h) - f(x,y-h)) / (2h)`. -/
def computeGradient (f : JNum → JNum → JNum) (x y h : JNum) : Gradient :=
  { gradX := (f (x + h) y - f (x - h) y) / (num 2 * h)
    gradY := (f x (y + h) - f x (y - h)) / (num 2 * h) }

/-- `sgdStep` from `surface-3d.tsx`: plain gradient descent.  The returned
object literal has only `x` and `y`, so every optional field is absent. -/
def sgdStep (state : OptimizerState) (gradient : Gradient) (params : OptimizerParams) :
    OptimizerState :=
  { x := state.x - params.learningRate * gradient.gradX
    y := state.y - params.learningRate * gradient.gradY }

/-- `momentumStep` from `surface-3d.tsx`. -/
def momentumStep (state : OptimizerState) (gradient : Gradient) (params : OptimizerParams) :
    OptimizerState :=
  let momentum := params.momentum.getD (num (9 / 10))
  let vx := momentum * (state.vx.getD (num 0)) + params.learningRate * gradient.gradX
  let vy := momentum * (state.vy.getD (num 0)) + params.learningRate * gradient.gradY
  { x := state.x - vx
    y := state.y - vy
    vx := some vx
    vy := some vy }

/-- `rmspropStep` from `surface-3d.tsx`. -/
def rmspropStep (msqrt : JNum → JNum) (state : OptimizerState) (gradient : Gradient)
    (params : OptimizerParams) : OptimizerState :=
  let rho := params.rho.getD (num (9 / 10))
  let epsilon := params.epsilon.getD (num (1 / 100000000))
  let sx := rho * (state.sx.getD (num 0)) + (num 1 - rho) * gradient.gradX * gradient.gradX
  let sy := rho * (state.sy.getD (num 0)) + (num 1 - rho) * gradient.gradY * gradient.gradY
  { x := state.x - (params.learningRate * gradient.gradX) / (msqrt sx + epsilon)
    y := state.y - (params.learningRate * gradient.gradY) / (msqrt sy + epsilon)
    sx := some sx
    sy := some sy }

/-- `adamStep` from `surface-3d.tsx`.  Note the bias-corrected first-moment
estimate for the y axis: the source divides `vy` by `1 - Math.pow(beta2, t)`
(with `beta2`, not `beta1`), while the x axis divides `vx` by
`1 - Math.pow(beta1, t)`.  Both second-moment denominators use `beta2`. -/
def adamStep (msqrt : JNum → JNum) (state : OptimizerState) (gradient : Gradient)
    (params : OptimizerParams) : OptimizerState :=
  let beta1 := params.beta1.getD (num (9 / 10))
  let beta2 := params.beta2.getD (num (999 / 1000))
  let epsilon := params.epsilon.getD (num (1 / 100000000))
  let t := state.t.getD 0 + 1
  let vx := beta1 * (state.vx.getD (num 0)) + (num 1 - beta1) * gradient.gradX
  let vy := beta1 * (state.vy.getD (num 0)) + (num 1 - beta1) * gradient.gradY
  let sx := beta2 * (state.sx.getD (num 0)) + (num 1 - beta2) * gradient.gradX * gradient.gradX
  let sy := beta2 * (state.sy.getD (num 0)) + (num 1 - beta2) * gradient.gradY * gradient.gradY
  let vxCorrected := vx / (num 1 - JNum.pow beta1 t)
  let vyCorrected := vy / (num 1 - JNum.pow beta2 t)
  let sxCorrected := sx / (num 1 - JNum.pow beta2 t)
  let syCorrected := sy / (num 1 - JNum.pow beta2 t)
  { x := state.x - (params.learningRate * vxCorrected) / (msqrt sxCorrected + epsilon)
    y := state.y - (params.learningRate * vyCorrected) / (msqrt syCorrected + epsilon)
    vx := some vx
    vy := some vy
    sx := some sx
    sy := some sy
    t := some t }

/-- `optimizerStep` from `surface-3d.tsx`: dispatch on the algorithm-type
tag, with plain descent as the `default` branch.  The TypeScript union type
`OptimizerType` is modelled by `String` so that the defensive `default`
branch for unrecognized runtime tags is expressible. -/
def optimizerStep (msqrt : JNum → JNum) (type : String) (state : OptimizerState)
    (gradient : Gradient) (params : OptimizerParams) : OptimizerState :=
  if type = "sgd" then sgdStep state gradient params
  else if type = "momentum" then momentumStep state gradient params
  else if type = "rmsprop" then rmspropStep msqrt state gradient params
  else if type = "adam" then adamStep msqrt state gradient params
  else sgdStep state gradient params

/-- `defaultParams` from `surface-3d.tsx`.  The source is a `Record` keyed by
exactly the four recognized tags; the catch-all branch is never consulted by
the UI, which only offers the four tags. -/
def defaultParams (type : String) : OptimizerParams :=
  if type = "sgd" then { learningRate := num (1 / 10) }
  else if type = "momentum" then { learningRate := num (1 / 10), momentum := some (num (9 / 10)) }
  else if type = "rmsprop" then
    { learningRate := num (1 / 100), rho := some (num (9 / 10)),
      epsilon := some (num (1 / 100000000)) }
  else
    { learningRate := num (1 / 10), beta1 := some (num (9 / 10)),
      beta2 := some (num (999 / 1000)), epsilon := some (num (1 / 100000000)) }

/-- The state of the `OptimizerVisualization` component that the trajectory
driver reads and writes: the algorithm tag and params, the starting point,
the run flag, the trajectory `path`, `currentStepIndex`, and the live
optimizer state held in `optimizerStateRef` (`none` models `null`).
Presentation-only fields (preset name, expression text, speed, display
toggles) are omitted; none of the modelled operations reads them. -/
structure AppState where
  optimizerType : String
  optimizerParams : OptimizerParams
  startX : JNum
  startY : JNum
  isRunning : Bool
  path : List OptimizerStep
  currentStepIndex : Int
  optimizerState : Option OptimizerState
  deriving DecidableEq, Repr

/-- `initializePath` from the `OptimizerVisualization` component: evaluates
`z` and the gradient at the start point, builds Step 0 (with `z` replaced by
`0` when non-finite, and no clamping), resets the path to that single step,
and sets the live optimizer state to the bare position. -/
def initializePath (f : JNum → JNum → JNum) (msqrt : JNum → JNum) (app : AppState) : AppState :=
  let z := f app.startX app.startY
  let g := computeGradient f app.startX app.startY hDefault
  let gradNorm := msqrt (g.gradX * g.gradX + g.gradY * g.gradY)
  let initialStep : OptimizerStep :=
    { x := app.startX
      y := app.startY
      z := if z.isFinite then z else num 0
      gradX := g.gradX
      gradY := g.gradY
      gradNorm := gradNorm
      step := 0 }
  { app with
    path := [initialStep]
    currentStepIndex := 0
    optimizerState := some { x := app.startX, y := app.startY } }

/-- `performStep` from the `OptimizerVisualization` component.  When the
live optimizer state is `null` it initializes the path and returns.
Otherwise: convergence check on the gradient norm (`< 1e-6` or non-finite
halts the run without appending), then the optimizer step, then the bounds
check on the candidate (`|x| > 100`, `|y| > 100`, or non-finite halts the
run without appending), then the candidate is committed, `z` is clamped to
`[-50, 50]` (or replaced by `0` when non-finite), and a record with
`step = path.length` is appended. -/
def performStep (f : JNum → JNum → JNum) (msqrt : JNum → JNum) (app : AppState) : AppState :=
  match app.optimizerState with
  | none => initializePath f msqrt app
  | some state =>
    let g := computeGradient f state.x state.y hDefault
    let gradNorm := msqrt (g.gradX * g.gradX + g.gradY * g.gradY)
    if JNum.lt gradNorm (num (1 / 1000000)) || !gradNorm.isFinite then
      { app with isRunning := false }
    else
      let newState := optimizerStep msqrt app.optimizerType state g app.optimizerParams
      if JNum.lt (num 100) (jabs newState.x) || JNum.lt (num 100) (jabs newState.y) ||
          !newState.x.isFinite || !newState.y.isFinite then
        { app with isRunning := false }
      else
        let z := f newState.x newState.y
        let newGrad := computeGradient f newState.x newState.y hDefault
        let newStep : OptimizerStep :=
          { x := newState.x
            y := newState.y
            z := if z.isFinite then jmin (jmax z (num (-50))) (num 50) else num 0
            gradX := newGrad.gradX
            gradY := newGrad.gradY
            gradNorm := msqrt (newGrad.gradX * newGrad.gradX + newGrad.gradY * newGrad.gradY)
            step := app.path.length }
        { app with
          optimizerState := some newState
          path := app.path ++ [newStep]
          currentStepIndex := app.currentStepIndex + 1 }

/-- `handleReset` from the `OptimizerVisualization` component. -/
def handleReset (app : AppState) : AppState :=
  { app with
    isRunning := false
    path := []
    currentStepIndex := -1
    optimizerState := none }

/-- The algorithm-switch action: the control panel's type `Select` invokes
`onOptimizerTypeChange(v)` and `onOptimizerParamsChange(defaultParams[v])`,
which the component wires directly to `setOptimizerType` and
`setOptimizerParams`.  No other state is touched. -/
def switchAlgorithm (type : String) (app : AppState) : AppState :=
  { app with
    optimizerType := type
    optimizerParams := defaultParams type }

/-- Iterated stepping: `runSteps f msqrt n app` performs `n` consecutive
`performStep` invocations. -/
def runSteps (f : JNum → JNum → JNum) (msqrt : JNum → JNum) : Nat → AppState → AppState
  | 0, app => app
  | n + 1, app => runSteps f msqrt n (performStep f msqrt app)

/-- The Quadratic Bowl preset `f(x,y) = x² + y²` from the loss-function
library (`fn: (x, y) => x * x + y * y`). -/
def quadraticBowl : JNum → JNum → JNum := fun x y => x * x + y * y

/-- Adam step as claim C1 words it: identical to `adamStep` except that the
bias-corrected first-moment estimate divides by `1 - beta1 ^ t'` on BOTH
axes.  This definition follows the claim, for comparison with the source's
`adamStep` (which uses `beta2` in the y-axis first-moment denominator). -/
def adamStepClaimC1 (msqrt : JNum → JNum) (state : OptimizerState) (gradient : Gradient)
    (params : OptimizerParams) : OptimizerState :=
  let beta1 := params.beta1.getD (num (9 / 10))
  let beta2 := params.beta2.getD (num (999 / 1000))
  let epsilon := params.epsilon.getD (num (1 / 100000000))
  let t := state.t.getD 0 + 1
  let vx := beta1 * (state.vx.getD (num 0)) + (num 1 - beta1) * gradient.gradX
  let vy := beta1 * (state.vy.getD (num 0)) + (num 1 - beta1) * gradient.gradY
  let sx := beta2 * (state.sx.getD (num 0)) + (num 1 - beta2) * gradient.gradX * gradient.gradX
  let sy := beta2 * (state.sy.getD (num 0)) + (num 1 - beta2) * gradient.gradY * gradient.gradY
  let vxCorrected := vx / (num 1 - JNum.pow beta1 t)
  let vyCorrected := vy / (num 1 - JNum.pow beta1 t)
  let sxCorrected := sx / (num 1 - JNum.pow beta2 t)
  let syCorrected := sy / (num 1 - JNum.pow beta2 t)
  { x := state.x - (params.learningRate * vxCorrected) / (msqrt sxCorrected + epsilon)
    y := state.y - (params.learningRate * vyCorrected) / (msqrt syCorrected + epsilon)
    vx := some vx
    vy := some vy
    sx := some sx
    sy := some sy
    t := some t }

/-- Convergence halt condition of `performStep`: the gradient norm at the
live position is below `1e-6` or non-finite. -/
def convergedAt (f : JNum → JNum → JNum) (msqrt : JNum → JNum) (state : OptimizerState) : Bool :=
  let g := computeGradient f state.x state.y hDefault
  let gradNorm := msqrt (g.gradX * g.gradX + g.gradY * g.gradY)
  JNum.lt gradNorm (num (1 / 1000000)) || !gradNorm.isFinite

/-- Divergence halt condition of `performStep`: the candidate next state has
a coordinate of magnitude above `100` or a non-finite coordinate. -/
def divergedAt (f : JNum → JNum → JNum) (msqrt : JNum → JNum) (type : String)
    (params : OptimizerParams) (state : OptimizerState) : Bool :=
  let g := computeGradient f state.x state.y hDefault
  let newState := optimizerStep msqrt type state g params
  JNum.lt (num 100) (jabs newState.x) || JNum.lt (num 100) (jabs newState.y) ||
    !newState.x.isFinite || !newState.y.isFinite

/-- Step-index invariant of a trajectory: `trajectory[i].step == i`. -/
def stepIndexInv (app : AppState) : Prop :=
  ∀ i d, i < app.path.length → (app.path.getD i d).step = i

/-- Display-clamp invariant: every trajectory record with index at least 1
has a finite `z` value inside `[-50, 50]`. -/
def zClampInv (app : AppState) : Prop :=
  ∀ i d, 1 ≤ i → i < app.path.length →
    ∃ q : ℚ, (app.path.getD i d).z = num q ∧ -50 ≤ q ∧ q ≤ 50

/-- An idle component state (no trajectory, no live optimizer state), used
to instantiate the driver theorems on concrete runs. -/
def idleApp (type : String) (params : OptimizerParams) (sx sy : JNum) : AppState :=
  { optimizerType := type
    optimizerParams := params
    startX := sx
    startY := sy
    isRunning := false
    path := []
    currentStepIndex := -1
    optimizerState := none }

/-- Concrete live optimizer state of a running Adam optimization: position
`(1, 1)` with accumulators present and step counter `t = 5`. -/
def adamRunState : OptimizerState :=
  { x := num 1
    y := num 1
    vx := some (num 2)
    vy := some (num 2)
    sx := some (num 3)
    sy := some (num 3)
    t := some 5 }

/-- Concrete component state of a running Adam optimization, used to test
the algorithm-switch action. -/
def adamRunApp : AppState :=
  { optimizerType := "adam"
    optimizerParams := defaultParams "adam"
    startX := num 1
    startY := num 1
    isRunning := false
    path := []
    currentStepIndex := 0
    optimizerState := some adamRunState }

/-- Concrete component state of a plain-descent run on the Quadratic Bowl
at position `(1, 1)` with `lr = 0.1` (a step from here neither converges
nor diverges). -/
def sgdRunApp : AppState :=
  { optimizerType := "sgd"
    optimizerParams := { learningRate := num (1 / 10) }
    startX := num 1
    startY := num 1
    isRunning := true
    path := []
    currentStepIndex := 0
    optimizerState := some { x := num 1, y := num 1 } }

/-- Concrete component state of a plain-descent run on the Quadratic Bowl
at position `(1, 1)` with the unstable `lr = 100` (the candidate next
position is `(-199, -199)`, out of bounds). -/
def divergingApp : AppState :=
  { optimizerType := "sgd"
    optimizerParams := { learningRate := num 100 }
    startX := num 1
    startY := num 1
    isRunning := true
    path := []
    currentStepIndex := 0
    optimizerState := some { x := num 1, y := num 1 } }

/-- Concrete idle component state starting plain descent on the Quadratic
Bowl at `(10, 10)`, where the loss `200` exceeds the display clamp range. -/
def farStartApp : AppState :=
  idleApp "sgd" { learningRate := num (1 / 10) } (num 10) (num 10)

/-- Arbitrary trajectory record, used as the `getD` default in concrete
instantiations (its `step` field is deliberately not a valid index). -/
def dummyRec : OptimizerStep :=
  { x := num 0
    y := num 0
    z := num 999
    gradX := num 0
    gradY := num 0
    gradNorm := num 0
    step := 37 }

/-- Unfolding lemma: `performStep` on a `null` live state only initializes. -/
theorem performStep_none (f : JNum → JNum → JNum) (msqrt : JNum → JNum) (app : AppState)
    (hst : app.optimizerState = none) :
    performStep f msqrt app = initializePath f msqrt app := by
  unfold performStep
  rw [hst]

/-- Characterization of `performStep` on an initialized live state: halt
without appending on the convergence or divergence condition, otherwise
commit the candidate and append one clamped record. -/
theorem performStep_some (f : JNum → JNum → JNum) (msqrt : JNum → JNum) (app : AppState)
    (state : OptimizerState) (hst : app.optimizerState = some state) :
    performStep f msqrt app =
      (if convergedAt f msqrt state then { app with isRunning := false }
       else if divergedAt f msqrt app.optimizerType app.optimizerParams state then
         { app with isRunning := false }
       else
         let newState := optimizerStep msqrt app.optimizerType state
           (computeGradient f state.x state.y hDefault) app.optimizerParams
         let z := f newState.x newState.y
         let newGrad := computeGradient f newState.x newState.y hDefault
         let newStep : OptimizerStep :=
           { x := newState.x
             y := newState.y
             z := if z.isFinite then jmin (jmax z (num (-50))) (num 50) else num 0
             gradX := newGrad.gradX
             gradY := newGrad.gradY
             gradNorm := msqrt (newGrad.gradX * newGrad.gradX + newGrad.gradY * newGrad.gradY)
             step := app.path.length }
         { app with
           optimizerState := some newState
           path := app.path ++ [newStep]
           currentStepIndex := app.currentStepIndex + 1 }) := by
  unfold performStep convergedAt divergedAt
  rw [hst]

/-- C1 counterexample: at a concrete state, gradient, and params, the
source's `adamStep` differs from the step the claim describes (first-moment
bias correction by `1 - beta1 ^ t'` on both axes): with `beta1 = 1/2`,
`beta2 = 1/4`, `t = 1`, the source corrects `vy` by `1 - beta2²  = 15/16`
while the claim demands `1 - beta1² = 3/4`, so the resulting `y` differs. -/
theorem C1_counterexample :
    adamStep (fun _ => num 0)
      { x := num 0, y := num 0, vx := some (num 0), vy := some (num 0),
        sx := some (num 0), sy := some (num 0), t := some 1 }
      { gradX := num 1, gradY := num 1 }
      { learningRate := num 1, epsilon := some (num 1),
        beta1 := some (num (1 / 2)), beta2 := some (num (1 / 4)) } ≠
    adamStepClaimC1 (fun _ => num 0)
      { x := num 0, y := num 0, vx := some (num 0), vy := some (num 0),
        sx := some (num 0), sy := some (num 0), t := some 1 }
      { gradX := num 1, gradY := num 1 }
      { learningRate := num 1, epsilon := some (num 1),
        beta1 := some (num (1 / 2)), beta2 := some (num (1 / 4)) } := by
  intro h
  have hy := congrArg OptimizerState.y h
  norm_num [adamStep, adamStepClaimC1, JNum.pow, JNum.add, JNum.sub, JNum.mul,
    JNum.div] at hy

/-- C1 (amended): the Adam step uses the same incremented timestep `t'` in
every bias-correction denominator; the second-moment corrections divide by
`1 - beta2 ^ t'` on both axes; the first-moment correction divides by
`1 - beta1 ^ t'` on the x axis but by `1 - beta2 ^ t'` on the y axis. -/
theorem C1_amended_adam_bias_correction (msqrt : JNum → JNum) (state : OptimizerState)
    (gradient : Gradient) (params : OptimizerParams) :
    (let beta1 := params.beta1.getD (num (9 / 10))
     let beta2 := params.beta2.getD (num (999 / 1000))
     let epsilon := params.epsilon.getD (num (1 / 100000000))
     let t := state.t.getD 0 + 1
     let vx := beta1 * (state.vx.getD (num 0)) + (num 1 - beta1) * gradient.gradX
     let vy := beta1 * (state.vy.getD (num 0)) + (num 1 - beta1) * gradient.gradY
     let sx := beta2 * (state.sx.getD (num 0)) + (num 1 - beta2) * gradient.gradX * gradient.gradX
     let sy := beta2 * (state.sy.getD (num 0)) + (num 1 - beta2) * gradient.gradY * gradient.gradY
     (adamStep msqrt state gradient params).t = some t ∧
     (adamStep msqrt state gradient params).x =
       state.x - (params.learningRate * (vx / (num 1 - JNum.pow beta1 t))) /
         (msqrt (sx / (num 1 - JNum.pow beta2 t)) + epsilon) ∧
     (adamStep msqrt state gradient params).y =
       state.y - (params.learningRate * (vy / (num 1 - JNum.pow beta2 t))) /
         (msqrt (sy / (num 1 - JNum.pow beta2 t)) + epsilon)) :=
  ⟨rfl, rfl, rfl⟩

/-- C2 counterexample: switching the algorithm away from Adam and back
leaves the live optimizer state containing `t = 5` (nothing is cleared by
the switch), and the next Adam step then reads that retained `t` and stores
`t = 6`, not `t = 1` as the claim's reset semantics would give. -/
theorem C2_counterexample :
    (switchAlgorithm "adam" (switchAlgorithm "sgd" adamRunApp)).optimizerState =
      some adamRunState ∧
    adamRunState.t = some 5 ∧
    (adamStep (fun a => a) adamRunState { gradX := num 2, gradY := num 2 }
      (defaultParams "adam")).t = some 6 :=
  ⟨rfl, rfl, rfl⟩

/-- C2 (amended): switching the algorithm type does not reset the live
optimizer state; it changes only the algorithm tag and replaces the params
with the new algorithm's defaults.  Every live state field — velocity,
squared-gradient accumulator, and the Adam timestep `t` — is retained, as is
the trajectory. -/
theorem C2_amended_switch_retains_state (type : String) (app : AppState) :
    (switchAlgorithm type app).optimizerState = app.optimizerState ∧
    (switchAlgorithm type app).path = app.path ∧
    (switchAlgorithm type app).optimizerType = type ∧
    (switchAlgorithm type app).optimizerParams = defaultParams type :=
  ⟨rfl, rfl, rfl, rfl⟩

/-- C6: for every state, gradient, and params, the RMSProp step computes,
per axis, the accumulator `s' = rho·s + (1-rho)·gradient²` (with `s` taken
as 0 when absent and `rho` defaulting to 0.9), and the position
`x' = x - lr·gradX / (sqrt(sx') + epsilon)` (symmetrically for y), with
`epsilon` defaulting to 1e-8. -/
theorem C6_rmsprop_update_formula (msqrt : JNum → JNum) (state : OptimizerState)
    (gradient : Gradient) (params : OptimizerParams) :
    rmspropStep msqrt state gradient params =
      (let rho := params.rho.getD (num (9 / 10))
       let epsilon := params.epsilon.getD (num (1 / 100000000))
       let sx := rho * (state.sx.getD (num 0)) + (num 1 - rho) * gradient.gradX * gradient.gradX
       let sy := rho * (state.sy.getD (num 0)) + (num 1 - rho) * gradient.gradY * gradient.gradY
       { x := state.x - (params.learningRate * gradient.gradX) / (msqrt sx + epsilon)
         y := state.y - (params.learningRate * gradient.gradY) / (msqrt sy + epsilon)
         vx := none
         vy := none
         sx := some sx
         sy := some sy
         t := none }) :=
  rfl

/-- C7: on the Quadratic Bowl `f(x,y) = x² + y²`, the central-difference
gradient at `(2.5, 2.5)` with `h = 1e-5` is exactly `(5, 5)` in exact
arithmetic, and one plain-descent step with `lr = 0.1` from `(2.5, 2.5)`
yields exactly `(2.0, 2.0)`. -/
theorem C7_plain_descent_quadratic_bowl_exact :
    computeGradient quadraticBowl (num (5 / 2)) (num (5 / 2)) hDefault =
      { gradX := num 5, gradY := num 5 } ∧
    sgdStep { x := num (5 / 2), y := num (5 / 2) }
      (computeGradient quadraticBowl (num (5 / 2)) (num (5 / 2)) hDefault)
      { learningRate := num (1 / 10) } =
      { x := num 2, y := num 2 } := by
  constructor
  · simp only [computeGradient, quadraticBowl, hDefault, JNum.add_def, JNum.sub_def,
      JNum.mul_def, JNum.div_def, JNum.add, JNum.sub, JNum.mul, JNum.div]
    norm_num
  · simp only [sgdStep, computeGradient, quadraticBowl, hDefault, JNum.add_def,
      JNum.sub_def, JNum.mul_def, JNum.div_def, JNum.add, JNum.sub, JNum.mul, JNum.div]
    norm_num

/-- C8: dispatching on an algorithm-type tag that is none of the four
recognized variants returns exactly the plain-descent (`sgdStep`) result. -/
theorem C8_unrecognized_tag_defaults_to_sgd (msqrt : JNum → JNum) (type : String)
    (state : OptimizerState) (gradient : Gradient) (params : OptimizerParams)
    (h1 : type ≠ "sgd") (h2 : type ≠ "momentum") (h3 : type ≠ "rmsprop")
    (h4 : type ≠ "adam") :
    optimizerStep msqrt type state gradient params = sgdStep state gradient params := by
  simp [optimizerStep, h1, h2, h3, h4]

/-- Witness for C8 at the concrete unrecognized tag `"adagrad"`. -/
theorem C8_witness :
    optimizerStep (fun a => a) "adagrad" { x := num 1, y := num 2 }
      { gradX := num 3, gradY := num 4 } { learningRate := num (1 / 10) } =
    sgdStep { x := num 1, y := num 2 } { gradX := num 3, gradY := num 4 }
      { learningRate := num (1 / 10) } :=
  C8_unrecognized_tag_defaults_to_sgd (fun a => a) "adagrad" _ _ _
    (by decide) (by decide) (by decide) (by decide)

/-- C3: from an initialized live state, `performStep` appends exactly one
record iff neither halt condition holds: on convergence (gradient norm below
`1e-6` or non-finite) or on divergence (candidate coordinate of magnitude
above 100 or non-finite) it only clears the run flag, retaining the existing
trajectory; otherwise it appends exactly one record. -/
theorem C3_step_appends_iff_no_halt (f : JNum → JNum → JNum) (msqrt : JNum → JNum)
    (app : AppState) (state : OptimizerState) (hst : app.optimizerState = some state) :
    (convergedAt f msqrt state = true →
      performStep f msqrt app = { app with isRunning := false }) ∧
    (convergedAt f msqrt state = false →
      divergedAt f msqrt app.optimizerType app.optimizerParams state = true →
      performStep f msqrt app = { app with isRunning := false }) ∧
    (convergedAt f msqrt state = false →
      divergedAt f msqrt app.optimizerType app.optimizerParams state = false →
      ∃ r : OptimizerStep, (performStep f msqrt app).path = app.path ++ [r]) ∧
    ((performStep f msqrt app).path.length = app.path.length + 1 ↔
      convergedAt f msqrt state = false ∧
        divergedAt f msqrt app.optimizerType app.optimizerParams state = false) := by
  rw [performStep_some f msqrt app state hst]
  cases hc : convergedAt f msqrt state <;>
    cases hd : divergedAt f msqrt app.optimizerType app.optimizerParams state <;>
      simp [hc, hd]

/-- Witness for C3 on a concrete non-halting step: plain descent on the
Quadratic Bowl from `(1, 1)` with `lr = 0.1` appends exactly one record. -/
theorem C3_witness :
    convergedAt quadraticBowl (fun a => a) { x := num 1, y := num 1 } = false ∧
    divergedAt quadraticBowl (fun a => a) "sgd" { learningRate := num (1 / 10) }
      { x := num 1, y := num 1 } = false ∧
    (performStep quadraticBowl (fun a => a) sgdRunApp).path.length =
      sgdRunApp.path.length + 1 := by
  have hc : convergedAt quadraticBowl (fun a => a) { x := num 1, y := num 1 } = false := by
    norm_num [convergedAt, computeGradient, quadraticBowl, hDefault, JNum.add, JNum.sub,
      JNum.mul, JNum.div, JNum.lt, JNum.isFinite]
  have hd : divergedAt quadraticBowl (fun a => a) "sgd" { learningRate := num (1 / 10) }
      { x := num 1, y := num 1 } = false := by
    norm_num [divergedAt, optimizerStep, sgdStep, computeGradient, quadraticBowl, hDefault,
      JNum.add, JNum.sub, JNum.mul, JNum.div, JNum.lt, JNum.isFinite, jabs, abs_le, lt_abs]
  exact ⟨hc, hd,
    ((C3_step_appends_iff_no_halt quadraticBowl (fun a => a) sgdRunApp
      { x := num 1, y := num 1 } rfl).2.2.2).mpr ⟨hc, hd⟩⟩

/-- C9: when the candidate next state is rejected by the divergence check,
nothing is committed: the component state is unchanged except for the run
flag, so the live optimizer state still holds the same position and
accumulator fields and the trajectory is unchanged. -/
theorem C9_rejected_candidate_not_committed (f : JNum → JNum → JNum) (msqrt : JNum → JNum)
    (app : AppState) (state : OptimizerState) (hst : app.optimizerState = some state)
    (hconv : convergedAt f msqrt state = false)
    (hdiv : divergedAt f msqrt app.optimizerType app.optimizerParams state = true) :
    performStep f msqrt app = { app with isRunning := false } ∧
    (performStep f msqrt app).optimizerState = some state ∧
    (performStep f msqrt app).path = app.path := by
  rw [performStep_some f msqrt app state hst]
  simp [hconv, hdiv, hst]

/-- Witness for C9 on a concrete diverging step: plain descent on the
Quadratic Bowl from `(1, 1)` with `lr = 100` proposes `(-199, -199)`, which
is rejected, and the live state and trajectory are unchanged. -/
theorem C9_witness :
    (performStep quadraticBowl (fun a => a) divergingApp).optimizerState =
      some { x := num 1, y := num 1 } ∧
    (performStep quadraticBowl (fun a => a) divergingApp).path = divergingApp.path := by
  have hc : convergedAt quadraticBowl (fun a => a) { x := num 1, y := num 1 } = false := by
    norm_num [convergedAt, computeGradient, quadraticBowl, hDefault, JNum.add, JNum.sub,
      JNum.mul, JNum.div, JNum.lt, JNum.isFinite]
  have hd : divergedAt quadraticBowl (fun a => a) "sgd" { learningRate := num 100 }
      { x := num 1, y := num 1 } = true := by
    norm_num [divergedAt, optimizerStep, sgdStep, computeGradient, quadraticBowl, hDefault,
      JNum.add, JNum.sub, JNum.mul, JNum.div, JNum.lt, JNum.isFinite, jabs, abs_le, lt_abs]
  have h := C9_rejected_candidate_not_committed quadraticBowl (fun a => a) divergingApp
    { x := num 1, y := num 1 } rfl hc hd
  exact ⟨h.2.1, h.2.2⟩

/-- The clamped display value appended by `performStep` is a rational in
`[-50, 50]` (the non-finite case substitutes `0`). -/
theorem clamp_z_bounds (z : JNum) :
    ∃ q : ℚ, (if z.isFinite then jmin (jmax z (num (-50))) (num 50) else num 0) = num q ∧
      -50 ≤ q ∧ q ≤ 50 := by
  cases z with
  | num a =>
      refine ⟨min (max a (-50)) 50, ?_, ?_, min_le_right _ _⟩
      · simp [JNum.isFinite, jmin, jmax]
      · exact le_min (le_max_right _ _) (by norm_num)
  | posInf => exact ⟨0, by simp [JNum.isFinite], by norm_num, by norm_num⟩
  | negInf => exact ⟨0, by simp [JNum.isFinite], by norm_num, by norm_num⟩
  | nan => exact ⟨0, by simp [JNum.isFinite], by norm_num, by norm_num⟩

/-- The step-index invariant holds right after `initializePath`. -/
theorem stepIndexInv_initializePath (f : JNum → JNum → JNum) (msqrt : JNum → JNum)
    (app : AppState) : stepIndexInv (initializePath f msqrt app) := by
  intro i d hi
  have h1 : (initializePath f msqrt app).path.length = 1 := rfl
  rw [h1] at hi
  have h0 : i = 0 := Nat.lt_one_iff.mp hi
  subst h0
  rfl

/-- `performStep` preserves the step-index invariant. -/
theorem stepIndexInv_performStep (f : JNum → JNum → JNum) (msqrt : JNum → JNum)
    (app : AppState) (h : stepIndexInv app) : stepIndexInv (performStep f msqrt app) := by
  cases hst : app.optimizerState with
  | none =>
      rw [performStep_none f msqrt app hst]
      exact stepIndexInv_initializePath f msqrt app
  | some state =>
      rw [performStep_some f msqrt app state hst]
      by_cases hc : convergedAt f msqrt state = true
      · rw [if_pos hc]
        exact fun i d hi => h i d hi
      · rw [if_neg hc]
        by_cases hd : divergedAt f msqrt app.optimizerType app.optimizerParams state = true
        · rw [if_pos hd]
          exact fun i d hi => h i d hi
        · rw [if_neg hd]
          intro i d hi
          have hi' : i < app.path.length + 1 := by
            simpa using hi
          rcases Nat.lt_succ_iff_lt_or_eq.mp hi' with hlt | heq
          · show ((app.path ++ _).getD i d).step = i
            rw [List.getD_append _ _ _ _ hlt]
            exact h i d hlt
          · subst heq
            show ((app.path ++ _).getD app.path.length d).step = app.path.length
            rw [List.getD_append_right _ _ _ _ (le_refl _)]
            simp

/-- Any number of `performStep` invocations preserves the step-index
invariant. -/
theorem stepIndexInv_runSteps (f : JNum → JNum → JNum) (msqrt : JNum → JNum) (n : ℕ)
    (app : AppState) (h : stepIndexInv app) : stepIndexInv (runSteps f msqrt n app) := by
  induction n generalizing app with
  | zero => exact h
  | succ n ih => exact ih _ (stepIndexInv_performStep f msqrt app h)

/-- The display-clamp invariant holds (vacuously) right after
`initializePath`: the fresh trajectory has only index 0. -/
theorem zClampInv_initializePath (f : JNum → JNum → JNum) (msqrt : JNum → JNum)
    (app : AppState) : zClampInv (initializePath f msqrt app) := by
  intro i d h1 h2
  have hl : (initializePath f msqrt app).path.length = 1 := rfl
  rw [hl] at h2
  exact absurd (Nat.lt_of_lt_of_le h2 h1) (Nat.lt_irrefl i)

/-- `performStep` preserves the display-clamp invariant. -/
theorem zClampInv_performStep (f : JNum → JNum → JNum) (msqrt : JNum → JNum)
    (app : AppState) (h : zClampInv app) : zClampInv (performStep f msqrt app) := by
  cases hst : app.optimizerState with
  | none =>
      rw [performStep_none f msqrt app hst]
      exact zClampInv_initializePath f msqrt app
  | some state =>
      rw [performStep_some f msqrt app state hst]
      by_cases hc : convergedAt f msqrt state = true
      · rw [if_pos hc]
        exact fun i d h1 h2 => h i d h1 h2
      · rw [if_neg hc]
        by_cases hd : divergedAt f msqrt app.optimizerType app.optimizerParams state = true
        · rw [if_pos hd]
          exact fun i d h1 h2 => h i d h1 h2
        · rw [if_neg hd]
          intro i d h1 h2
          have h2' : i < app.path.length + 1 := by
            simpa using h2
          rcases Nat.lt_succ_iff_lt_or_eq.mp h2' with hlt | heq
          · show ∃ q : ℚ, (((app.path ++ _).getD i d).z = num q) ∧ -50 ≤ q ∧ q ≤ 50
            rw [List.getD_append _ _ _ _ hlt]
            exact h i d h1 hlt
          · subst heq
            show ∃ q : ℚ,
              (((app.path ++ _).getD app.path.length d).z = num q) ∧ -50 ≤ q ∧ q ≤ 50
            rw [List.getD_append_right _ _ _ _ (le_refl _)]
            simpa using clamp_z_bounds (f
              (optimizerStep msqrt app.optimizerType state
                (computeGradient f state.x state.y hDefault) app.optimizerParams).x
              (optimizerStep msqrt app.optimizerType state
                (computeGradient f state.x state.y hDefault) app.optimizerParams).y)

/-- Any number of `performStep` invocations preserves the display-clamp
invariant. -/
theorem zClampInv_runSteps (f : JNum → JNum → JNum) (msqrt : JNum → JNum) (n : ℕ)
    (app : AppState) (h : zClampInv app) : zClampInv (runSteps f msqrt n app) := by
  induction n generalizing app with
  | zero => exact h
  | succ n ih => exact ih _ (zClampInv_performStep f msqrt app h)

/-- C5: in every trajectory reachable by an Initialize followed by any
number of Steps, the record at index `i` has `step = i`. -/
theorem C5_trajectory_step_indices (f : JNum → JNum → JNum) (msqrt : JNum → JNum)
    (app : AppState) (n i : ℕ) (d : OptimizerStep)
    (hi : i < (runSteps f msqrt n (initializePath f msqrt app)).path.length) :
    ((runSteps f msqrt n (initializePath f msqrt app)).path.getD i d).step = i :=
  stepIndexInv_runSteps f msqrt n _ (stepIndexInv_initializePath f msqrt app) i d hi

/-- Witness for C5 on a concrete trajectory: right after initialization the
record at index 0 has `step = 0` (and the `getD` default's `step = 37` is
not consulted). -/
theorem C5_witness :
    ((runSteps quadraticBowl (fun a => a) 0
        (initializePath quadraticBowl (fun a => a) sgdRunApp)).path.getD 0 dummyRec).step = 0 :=
  C5_trajectory_step_indices quadraticBowl (fun a => a) sgdRunApp 0 0 dummyRec (by decide)

/-- C10: in every trajectory reachable by an Initialize followed by any
number of Steps, each record with index at least 1 carries a finite display
`z` inside `[-50, 50]` (with `0` substituted when the loss is non-finite),
while the initial record's `z` is the raw loss value at the start point
whenever that value is finite (no clamping is applied to it). -/
theorem C10_z_clamp_policy (f : JNum → JNum → JNum) (msqrt : JNum → JNum)
    (app : AppState) (n i : ℕ) (d : OptimizerStep) (h1 : 1 ≤ i)
    (h2 : i < (runSteps f msqrt n (initializePath f msqrt app)).path.length) :
    (∃ q : ℚ, ((runSteps f msqrt n (initializePath f msqrt app)).path.getD i d).z = num q ∧
      -50 ≤ q ∧ q ≤ 50) ∧
    ((initializePath f msqrt app).path.getD 0 d).z =
      (if (f app.startX app.startY).isFinite then f app.startX app.startY else num 0) :=
  ⟨zClampInv_runSteps f msqrt n _ (zClampInv_initializePath f msqrt app) i d h1 h2, rfl⟩

/-- Witness for C10 on a concrete run: starting plain descent on the
Quadratic Bowl at `(10, 10)` (initial raw loss `200`, outside the clamp
range), the record appended by the first step has a clamped `z` in
`[-50, 50]`, while the initial record's `z` is the raw `200`. -/
theorem C10_witness :
    (∃ q : ℚ, ((runSteps quadraticBowl (fun a => a) 1
        (initializePath quadraticBowl (fun a => a) farStartApp)).path.getD 1 dummyRec).z =
          num q ∧ -50 ≤ q ∧ q ≤ 50) ∧
    ((initializePath quadraticBowl (fun a => a) farStartApp).path.getD 0 dummyRec).z =
      num 200 := by
  have hlen : 1 < (runSteps quadraticBowl (fun a => a) 1
      (initializePath quadraticBowl (fun a => a) farStartApp)).path.length := by
    norm_num [runSteps, performStep, initializePath, farStartApp, idleApp, optimizerStep,
      sgdStep, computeGradient, quadraticBowl, hDefault, convergedAt, divergedAt, JNum.add,
      JNum.sub, JNum.mul, JNum.div, JNum.lt, JNum.isFinite, jabs, jmin, jmax, abs_le, lt_abs]
  refine ⟨(C10_z_clamp_policy quadraticBowl (fun a => a) farStartApp 1 1 dummyRec
    (le_refl 1) hlen).1, ?_⟩
  norm_num [initializePath, farStartApp, idleApp, quadraticBowl, JNum.isFinite, JNum.add,
    JNum.mul]

/-- Non-finiteness propagates through the central-difference arithmetic: if
either sample of a difference quotient with a positive rational denominator
is non-finite, so is the quotient. -/
theorem sub_div_num_not_finite (u v : JNum) (c : ℚ) (hc : 0 < c)
    (h : u.isFinite = false ∨ v.isFinite = false) :
    ((u - v) / num c).isFinite = false := by
  have hc0 : c ≠ 0 := ne_of_gt hc
  cases u <;> cases v <;>
    simp_all [JNum.sub, JNum.div, JNum.isFinite, hc.le]

/-- C4: for every function and point, the gradient estimator returns exactly
the central difference quotients with `h = 1e-5`; when the samples are
finite rationals the result is the exact rational difference quotient, and
when a sample on an axis is non-finite the non-finite value propagates into
that component of the gradient (no guard exists at this layer). -/
theorem C4_gradient_formula_and_propagation (f : JNum → JNum → JNum) (x y : JNum) :
    (computeGradient f x y hDefault).gradX =
      (f (x + hDefault) y - f (x - hDefault) y) / (num 2 * hDefault) ∧
    (computeGradient f x y hDefault).gradY =
      (f x (y + hDefault) - f x (y - hDefault)) / (num 2 * hDefault) ∧
    (∀ a b : ℚ, f (x + hDefault) y = num a → f (x - hDefault) y = num b →
      (computeGradient f x y hDefault).gradX = num ((a - b) / (2 * (1 / 100000)))) ∧
    ((f (x + hDefault) y).isFinite = false ∨ (f (x - hDefault) y).isFinite = false →
      ((computeGradient f x y hDefault).gradX).isFinite = false) ∧
    ((f x (y + hDefault)).isFinite = false ∨ (f x (y - hDefault)).isFinite = false →
      ((computeGradient f x y hDefault).gradY).isFinite = false) := by
  refine ⟨rfl, rfl, ?_, ?_, ?_⟩
  · intro a b ha hb
    show (f (x + hDefault) y - f (x - hDefault) y) / (num 2 * hDefault) = _
    rw [ha, hb]
    norm_num [hDefault, JNum.sub, JNum.div, JNum.mul]
  · intro h
    exact sub_div_num_not_finite (f (x + hDefault) y) (f (x - hDefault) y)
      (2 * (1 / 100000)) (by norm_num) h
  · intro h
    exact sub_div_num_not_finite (f x (y + hDefault)) (f x (y - hDefault))
      (2 * (1 / 100000)) (by norm_num) h

/-- Witness for C4: with `f(u, v) = u` at the origin the exact difference
quotient gives gradient component 1, and with `f` constantly `Infinity` the
non-finite value propagates into the gradient. -/
theorem C4_witness :
    (computeGradient (fun u _ => u) (num 0) (num 0) hDefault).gradX = num 1 ∧
    ((computeGradient (fun _ _ => posInf) (num 0) (num 0) hDefault).gradX).isFinite =
      false := by
  constructor
  · have ha : (fun (u : JNum) (_ : JNum) => u) ((num 0) + hDefault) (num 0) =
        num (1 / 100000) := by
      norm_num [hDefault, JNum.add]
    have hb : (fun (u : JNum) (_ : JNum) => u) ((num 0) - hDefault) (num 0) =
        num (-(1 / 100000)) := by
      norm_num [hDefault, JNum.sub]
    have h := (C4_gradient_formula_and_propagation (fun u _ => u) (num 0) (num 0)).2.2.1
      (1 / 100000) (-(1 / 100000)) ha hb
    rw [h]
    norm_num
  · exact (C4_gradient_formula_and_propagation (fun _ _ => posInf) (num 0) (num 0)).2.2.2.1
      (Or.inl rfl)
